import Mathlib

/-
Verification development for the django-celery-example contact-form
repository.  The embedding below translates the repository sources:

  * contact_form/tasks.py   — the Celery task send_email_task (the
    Notification Dispatcher): it logs the attempt, calls Django
    send_mail(subject, message, DEFAULT_FROM_EMAIL, [«to»]), catches
    BadHeaderError (logged at info level) and every other Exception
    (logged at error level), and never re-raises.
  * contact_form/models.py  — the ContactForm model: email (EmailField),
    name and subject (CharField max_length 64), message (TextField),
    created_on (DateTimeField auto_now=True).
  * contact_form/forms.py   — ContactFormModelForm, a ModelForm over
    exactly the fields name, email, subject, message.

The mail transport is external, so the task body is parameterised over a
transport function returning one of the three observable outcomes the
Python code distinguishes: success, BadHeaderError, or a generic
exception.  Execution of the body is recorded as a trace of events (log
entries and transport invocations) plus a termination outcome, so that
log counts, call counts and exception propagation are all expressible.
-/

namespace CeleryExample

/-- The three outcomes of the external send_mail call that tasks.py
distinguishes: normal return, BadHeaderError, or any other Exception
carrying a message. -/
inductive TransportResult where
  | success : TransportResult
  | badHeader : TransportResult
  | otherError : String → TransportResult

/-- The two logger levels used in tasks.py: logger.info and logger.error. -/
inductive LogLevel where
  | info : LogLevel
  | error : LogLevel

/-- One emitted log entry: its level and its message text. -/
structure LogEntry where
  level : LogLevel
  msg : String

/-- One invocation of the external transport, with the exact arguments of
the Python call send_mail(subject, message, from_email, recipient_list). -/
structure TransportCall where
  subject : String
  message : String
  from_email : String
  recipient_list : List String

/-- An observable event of one task-body execution: a log entry was
emitted, or the transport was invoked. -/
inductive Event where
  | logged : LogEntry → Event
  | transportCalled : TransportCall → Event

/-- The per-request final states of the state machine in the design
section: transport success, invalid-header drop, or logged generic
failure. -/
inductive DispatchState where
  | Sent : DispatchState
  | DroppedMalformedHeader : DispatchState
  | LoggedFailure : DispatchState

/-- How one execution of the task body terminates: normally, in a final
dispatch state, or by propagating an exception to the task runner. -/
inductive TaskOutcome where
  | completed : DispatchState → TaskOutcome
  | raised : String → TaskOutcome

/-- The full record of one execution of the task body: its event trace
and its termination outcome. -/
structure ExecResult where
  trace : List Event
  outcome : TaskOutcome

/-- The retry ceiling declared on the task: @shared_task(bind=True,
max_retries=3) in tasks.py. -/
def max_retries : Nat := 3

/-- The text of the first logger.info call of send_email_task: the
attempt entry naming sender, recipient, subject and message. -/
def attemptLogMsg (DEFAULT_FROM_EMAIL «to» subject message : String) : String :=
  let recipient := «to»
  s!"from={DEFAULT_FROM_EMAIL}, to={recipient}, subject={subject}, message={message}"

/-- The body of send_email_task from tasks.py, one execution.  It is
parameterised over the configured DEFAULT_FROM_EMAIL (imported from the
settings module, which is external configuration) and over the external
send_mail transport.  Line by line: logger.info of the attempt with
sender, recipient, subject and message; logger.info "About to
send_mail"; the transport call send_mail(subject, message,
DEFAULT_FROM_EMAIL, [«to»]); on BadHeaderError a logger.info
"BadHeaderError"; on any other Exception e a logger.error(e).  No branch
re-raises, so every branch ends in TaskOutcome.completed. -/
def send_email_task (DEFAULT_FROM_EMAIL : String)
    (send_mail : String → String → String → List String → TransportResult)
    («to» subject message : String) : ExecResult :=
  let attemptEntry : LogEntry :=
    ⟨LogLevel.info, attemptLogMsg DEFAULT_FROM_EMAIL «to» subject message⟩
  let aboutEntry : LogEntry := ⟨LogLevel.info, "About to send_mail"⟩
  let call : TransportCall := ⟨subject, message, DEFAULT_FROM_EMAIL, [«to»]⟩
  let pre : List Event :=
    [Event.logged attemptEntry, Event.logged aboutEntry, Event.transportCalled call]
  match send_mail subject message DEFAULT_FROM_EMAIL [«to»] with
  | TransportResult.success =>
      ⟨pre, TaskOutcome.completed DispatchState.Sent⟩
  | TransportResult.badHeader =>
      ⟨pre ++ [Event.logged ⟨LogLevel.info, "BadHeaderError"⟩],
        TaskOutcome.completed DispatchState.DroppedMalformedHeader⟩
  | TransportResult.otherError e =>
      ⟨pre ++ [Event.logged ⟨LogLevel.error, e⟩],
        TaskOutcome.completed DispatchState.LoggedFailure⟩

/-- Number of informational log entries in a trace. -/
def infoCount (trace : List Event) : Nat :=
  trace.countP fun ev =>
    match ev with
    | Event.logged ⟨LogLevel.info, _⟩ => true
    | _ => false

/-- Number of error-level log entries in a trace. -/
def errorCount (trace : List Event) : Nat :=
  trace.countP fun ev =>
    match ev with
    | Event.logged ⟨LogLevel.error, _⟩ => true
    | _ => false

/-- Number of informational entries whose text is the BadHeaderError
message of tasks.py. -/
def badHeaderLogCount (trace : List Event) : Nat :=
  trace.countP fun ev =>
    match ev with
    | Event.logged ⟨LogLevel.info, m⟩ => m == "BadHeaderError"
    | _ => false

/-- The transport invocations of a trace, in order. -/
def transportCalls (trace : List Event) : List TransportCall :=
  trace.filterMap fun ev =>
    match ev with
    | Event.transportCalled c => some c
    | _ => none

/-- Modelled from the spec: the task-queue collaborator (the Celery
worker, external to the repository) executes the task body and
re-executes it only when the body raises an exception back to the
runner, up to the given budget of additional attempts; the result is the
total number of attempts performed.  The body is indexed by the attempt
number so that attempts may behave differently. -/
def runAttempts (body : Nat → TaskOutcome) (attempt : Nat) : Nat → Nat
  | 0 => 1
  | budget + 1 =>
    match body attempt with
    | TaskOutcome.completed _ => 1
    | TaskOutcome.raised _ => 1 + runAttempts body (attempt + 1) budget

/-- Total number of transport-facing attempts the task runner performs
for one send-request of send_email_task, under the declared max_retries
budget. -/
def dispatchAttempts (DEFAULT_FROM_EMAIL : String)
    (send_mail : String → String → String → List String → TransportResult)
    («to» subject message : String) : Nat :=
  runAttempts
    (fun _ => (send_email_task DEFAULT_FROM_EMAIL send_mail «to» subject message).outcome)
    0 max_retries

/-- A body that completes on its first attempt is run exactly once,
whatever the retry budget. -/
theorem runAttempts_completed (body : Nat → TaskOutcome) (a n : Nat)
    (s : DispatchState) (h : body a = TaskOutcome.completed s) :
    runAttempts body a n = 1 := by
  cases n with
  | zero => rfl
  | succ b => simp [runAttempts, h]

/-- The ContactForm model of models.py: email (EmailField), name and
subject (CharField max_length 64), message (TextField), created_on
(DateTimeField auto_now=True).  Timestamps are modelled as natural
numbers. -/
structure ContactForm where
  email : String
  name : String
  subject : String
  message : String
  created_on : Nat

/-- Saving a ContactForm record.  created_on is declared with
auto_now=True in models.py, so the framework sets it to the current time
on every save, creation and update alike; no other field is touched by
the save machinery. -/
def ContactForm.save (r : ContactForm) (now : Nat) : ContactForm :=
  { r with created_on := now }

/-- The data of one HTTP submission as the form sees it: the values
posted under the four declared field names, and every other posted key
(name and value), among which an attempt to post a created_on value
would fall. -/
structure SubmissionData where
  name : String
  email : String
  subject : String
  message : String
  other_fields : List (String × String)

/-- Validation of a CharField with a max_length, per the field
declarations of models.py under default Django form semantics: the field
is required (blank is rejected) and input longer than max_length is
rejected. -/
def char_field_ok (maxLength : Nat) (s : String) : Bool :=
  (s != "") && decide (s.length ≤ maxLength)

/-- Validation of the EmailField, per models.py under default form
semantics: required, and the value must pass the framework email
validator, which is kept abstract as a parameter. -/
def email_field_ok (emailValidator : String → Bool) (s : String) : Bool :=
  (s != "") && emailValidator s

/-- Validation of the TextField message: required. -/
def text_field_ok (s : String) : Bool :=
  s != ""

/-- Whole-form validation of ContactFormModelForm over its declared
fields ["name", "email", "subject", "message"] (forms.py), with the
constraints the model declares for each field. -/
def form_is_valid (emailValidator : String → Bool) (d : SubmissionData) : Bool :=
  char_field_ok 64 d.name &&
  email_field_ok emailValidator d.email &&
  char_field_ok 64 d.subject &&
  text_field_ok d.message

/-- The model instance ContactFormModelForm builds from the submission:
forms.py declares fields = ["name", "email", "subject", "message"], so
exactly those four posted values are mapped onto the record and every
other posted key is ignored; created_on is not among the mapped fields
and starts at the unsaved default. -/
def ContactFormModelForm.build (d : SubmissionData) : ContactForm :=
  { email := d.email, name := d.name, subject := d.subject,
    message := d.message, created_on := 0 }

/-- Modelled from the spec: the Submission Endpoint (ContactFormView,
referenced from urls.py; its module is not among the repository files).
Per the spec, on validation success it persists the ContactMessage built
by the form — the save stamping created_on — and on validation failure
no record is persisted. -/
def ContactFormView.post (emailValidator : String → Bool)
    (d : SubmissionData) (now : Nat) : Option ContactForm :=
  if form_is_valid emailValidator d then
    some ((ContactFormModelForm.build d).save now)
  else
    none

/-- C1: when the transport raises a generic (non-invalid-header)
failure, send_email_task logs exactly one error entry, terminates
normally in the LoggedFailure state instead of signalling the failure
back to the task runner, and consequently the runner performs exactly
one attempt — no retry fires despite the configured 3-retry ceiling. -/
theorem send_email_task_generic_failure_logged_not_retried
    (DEFAULT_FROM_EMAIL : String)
    (send_mail : String → String → String → List String → TransportResult)
    («to» subject message e : String)
    (h : send_mail subject message DEFAULT_FROM_EMAIL [«to»] =
      TransportResult.otherError e) :
    errorCount
      (send_email_task DEFAULT_FROM_EMAIL send_mail «to» subject message).trace = 1 ∧
    (send_email_task DEFAULT_FROM_EMAIL send_mail «to» subject message).outcome =
      TaskOutcome.completed DispatchState.LoggedFailure ∧
    dispatchAttempts DEFAULT_FROM_EMAIL send_mail «to» subject message = 1 := by
  refine ⟨?_, ?_, ?_⟩
  · simp [send_email_task, h, errorCount]
  · simp [send_email_task, h]
  · exact runAttempts_completed _ 0 max_retries DispatchState.LoggedFailure
      (by simp [send_email_task, h])

/-- C1 witness: a concrete transport that always raises a generic
failure, at concrete inputs. -/
theorem send_email_task_generic_failure_logged_not_retried_witness :
    errorCount
      (send_email_task "from@example.com" (fun _ _ _ _ => TransportResult.otherError "boom")
        "ops@example.com" "Hi" "Hello").trace = 1 ∧
    (send_email_task "from@example.com" (fun _ _ _ _ => TransportResult.otherError "boom")
      "ops@example.com" "Hi" "Hello").outcome =
      TaskOutcome.completed DispatchState.LoggedFailure ∧
    dispatchAttempts "from@example.com" (fun _ _ _ _ => TransportResult.otherError "boom")
      "ops@example.com" "Hi" "Hello" = 1 :=
  send_email_task_generic_failure_logged_not_retried "from@example.com"
    (fun _ _ _ _ => TransportResult.otherError "boom") "ops@example.com" "Hi" "Hello"
    "boom" rfl

/-- The attempt-trace entry of send_email_task never carries the text
BadHeaderError: its message starts with the characters from=. -/
theorem attempt_msg_ne_badHeader (d t s m : String) :
    (attemptLogMsg d t s m == "BadHeaderError") = false := by
  unfold attemptLogMsg
  rw [beq_eq_false_iff_ne]
  intro heq
  have h2 := congrArg (fun x => x.data.head?) heq
  simp [String.data_append, toString] at h2

/-- C2: when the transport reports an invalid header (BadHeaderError),
send_email_task logs that condition, makes no further delivery attempt
(exactly one transport invocation occurs), and terminates normally in
the DroppedMalformedHeader state: no exception is propagated and no
retry is performed. -/
theorem send_email_task_bad_header_dropped
    (DEFAULT_FROM_EMAIL : String)
    (send_mail : String → String → String → List String → TransportResult)
    («to» subject message : String)
    (h : send_mail subject message DEFAULT_FROM_EMAIL [«to»] =
      TransportResult.badHeader) :
    badHeaderLogCount
      (send_email_task DEFAULT_FROM_EMAIL send_mail «to» subject message).trace = 1 ∧
    (transportCalls
      (send_email_task DEFAULT_FROM_EMAIL send_mail «to» subject message).trace).length
      = 1 ∧
    (send_email_task DEFAULT_FROM_EMAIL send_mail «to» subject message).outcome =
      TaskOutcome.completed DispatchState.DroppedMalformedHeader ∧
    dispatchAttempts DEFAULT_FROM_EMAIL send_mail «to» subject message = 1 := by
  refine ⟨?_, ?_, ?_, ?_⟩
  · simp [send_email_task, h, badHeaderLogCount, attempt_msg_ne_badHeader]
  · simp [send_email_task, h, transportCalls]
  · simp [send_email_task, h]
  · exact runAttempts_completed _ 0 max_retries DispatchState.DroppedMalformedHeader
      (by simp [send_email_task, h])

/-- C2 witness: a concrete transport that always reports an invalid
header, at concrete inputs. -/
theorem send_email_task_bad_header_dropped_witness :
    badHeaderLogCount
      (send_email_task "from@example.com" (fun _ _ _ _ => TransportResult.badHeader)
        "ops@example.com" "Hi" "Hello").trace = 1 ∧
    (transportCalls
      (send_email_task "from@example.com" (fun _ _ _ _ => TransportResult.badHeader)
        "ops@example.com" "Hi" "Hello").trace).length = 1 ∧
    (send_email_task "from@example.com" (fun _ _ _ _ => TransportResult.badHeader)
      "ops@example.com" "Hi" "Hello").outcome =
      TaskOutcome.completed DispatchState.DroppedMalformedHeader ∧
    dispatchAttempts "from@example.com" (fun _ _ _ _ => TransportResult.badHeader)
      "ops@example.com" "Hi" "Hello" = 1 :=
  send_email_task_bad_header_dropped "from@example.com"
    (fun _ _ _ _ => TransportResult.badHeader) "ops@example.com" "Hi" "Hello" rfl

/-- C3 counterexample: at a concrete invocation whose transport reports
an invalid header, the whole invocation emits three informational log
entries, not exactly one — the attempt entry and the About to send_mail
entry precede the BadHeaderError entry. -/
theorem send_email_task_bad_header_not_single_info :
    ¬ (infoCount
        (send_email_task "from@example.com" (fun _ _ _ _ => TransportResult.badHeader)
          "ops@example.com" "Hi" "Hello").trace = 1) := by
  decide

/-- C3 amended: when the transport reports an invalid header, the
invocation emits exactly three informational log entries in total — two
attempt-trace entries before the transport call and exactly one entry
reporting the invalid-header condition after it — and no further
delivery attempt is made. -/
theorem send_email_task_bad_header_info_entries
    (DEFAULT_FROM_EMAIL : String)
    (send_mail : String → String → String → List String → TransportResult)
    («to» subject message : String)
    (h : send_mail subject message DEFAULT_FROM_EMAIL [«to»] =
      TransportResult.badHeader) :
    infoCount
      (send_email_task DEFAULT_FROM_EMAIL send_mail «to» subject message).trace = 3 ∧
    badHeaderLogCount
      (send_email_task DEFAULT_FROM_EMAIL send_mail «to» subject message).trace = 1 ∧
    (transportCalls
      (send_email_task DEFAULT_FROM_EMAIL send_mail «to» subject message).trace).length
      = 1 := by
  refine ⟨?_, ?_, ?_⟩
  · simp [send_email_task, h, infoCount]
  · simp [send_email_task, h, badHeaderLogCount, attempt_msg_ne_badHeader]
  · simp [send_email_task, h, transportCalls]

/-- C3 amended witness: the three informational entries at a concrete
invalid-header invocation. -/
theorem send_email_task_bad_header_info_entries_witness :
    infoCount
      (send_email_task "from@example.net" (fun _ _ _ _ => TransportResult.badHeader)
        "user@example.net" "Subj" "Body").trace = 3 ∧
    badHeaderLogCount
      (send_email_task "from@example.net" (fun _ _ _ _ => TransportResult.badHeader)
        "user@example.net" "Subj" "Body").trace = 1 ∧
    (transportCalls
      (send_email_task "from@example.net" (fun _ _ _ _ => TransportResult.badHeader)
        "user@example.net" "Subj" "Body").trace).length = 1 :=
  send_email_task_bad_header_info_entries "from@example.net"
    (fun _ _ _ _ => TransportResult.badHeader) "user@example.net" "Subj" "Body" rfl

/-- C4: when the transport call succeeds, send_email_task produces no
error-level log entry and the send-request ends in the Sent state. -/
theorem send_email_task_success_no_error_log
    (DEFAULT_FROM_EMAIL : String)
    (send_mail : String → String → String → List String → TransportResult)
    («to» subject message : String)
    (h : send_mail subject message DEFAULT_FROM_EMAIL [«to»] =
      TransportResult.success) :
    errorCount
      (send_email_task DEFAULT_FROM_EMAIL send_mail «to» subject message).trace = 0 ∧
    (send_email_task DEFAULT_FROM_EMAIL send_mail «to» subject message).outcome =
      TaskOutcome.completed DispatchState.Sent := by
  refine ⟨?_, ?_⟩
  · simp [send_email_task, h, errorCount]
  · simp [send_email_task, h]

/-- C4 witness: a concrete always-successful transport at concrete
inputs. -/
theorem send_email_task_success_no_error_log_witness :
    errorCount
      (send_email_task "from@example.com" (fun _ _ _ _ => TransportResult.success)
        "ops@example.com" "Hi" "Hello").trace = 0 ∧
    (send_email_task "from@example.com" (fun _ _ _ _ => TransportResult.success)
      "ops@example.com" "Hi" "Hello").outcome =
      TaskOutcome.completed DispatchState.Sent :=
  send_email_task_success_no_error_log "from@example.com"
    (fun _ _ _ _ => TransportResult.success) "ops@example.com" "Hi" "Hello" rfl

/-- C5: every delivery attempt invokes the transport exactly once per
execution, with the configured default sender as from-address, the
single recipient as the whole recipient list, and subject and body
unchanged; and the first two trace events — both preceding the transport
invocation, which is the third event — are the informational entries
logging the attempt (sender, recipient, subject, body) and the About to
send_mail marker. -/
theorem send_email_task_transport_arguments
    (DEFAULT_FROM_EMAIL : String)
    (send_mail : String → String → String → List String → TransportResult)
    («to» subject message : String) :
    transportCalls
      (send_email_task DEFAULT_FROM_EMAIL send_mail «to» subject message).trace =
      [⟨subject, message, DEFAULT_FROM_EMAIL, [«to»]⟩] ∧
    (send_email_task DEFAULT_FROM_EMAIL send_mail «to» subject message).trace.take 3 =
      [Event.logged ⟨LogLevel.info,
          attemptLogMsg DEFAULT_FROM_EMAIL «to» subject message⟩,
        Event.logged ⟨LogLevel.info, "About to send_mail"⟩,
        Event.transportCalled ⟨subject, message, DEFAULT_FROM_EMAIL, [«to»]⟩] := by
  cases hR : send_mail subject message DEFAULT_FROM_EMAIL [«to»] with
  | success => exact ⟨by simp [send_email_task, hR, transportCalls],
      by simp [send_email_task, hR]⟩
  | badHeader => exact ⟨by simp [send_email_task, hR, transportCalls],
      by simp [send_email_task, hR]⟩
  | otherError e => exact ⟨by simp [send_email_task, hR, transportCalls],
      by simp [send_email_task, hR]⟩

/-- Whatever the transport does, send_email_task completes normally, so
the runner performs exactly one attempt. -/
theorem dispatchAttempts_eq_one
    (DEFAULT_FROM_EMAIL : String)
    (send_mail : String → String → String → List String → TransportResult)
    («to» subject message : String) :
    dispatchAttempts DEFAULT_FROM_EMAIL send_mail «to» subject message = 1 := by
  cases hR : send_mail subject message DEFAULT_FROM_EMAIL [«to»] with
  | success =>
      exact runAttempts_completed _ 0 max_retries DispatchState.Sent
        (by simp [send_email_task, hR])
  | badHeader =>
      exact runAttempts_completed _ 0 max_retries DispatchState.DroppedMalformedHeader
        (by simp [send_email_task, hR])
  | otherError e =>
      exact runAttempts_completed _ 0 max_retries DispatchState.LoggedFailure
        (by simp [send_email_task, hR])

/-- C6: the task runner performs at most 3 attempts in total for one
send-request of send_email_task, and — for any task body under the
declared budget — a second attempt is reachable only when the first
attempt raises a failure back to the runner rather than swallowing it. -/
theorem send_email_task_retry_budget
    (DEFAULT_FROM_EMAIL : String)
    (send_mail : String → String → String → List String → TransportResult)
    («to» subject message : String) :
    dispatchAttempts DEFAULT_FROM_EMAIL send_mail «to» subject message ≤ 3 ∧
    ∀ body : Nat → TaskOutcome,
      1 < runAttempts body 0 max_retries → ∃ e, body 0 = TaskOutcome.raised e := by
  constructor
  · have h1 := dispatchAttempts_eq_one DEFAULT_FROM_EMAIL send_mail «to» subject message
    omega
  · intro body hgt
    cases hb : body 0 with
    | completed s =>
        rw [runAttempts_completed body 0 max_retries s hb] at hgt
        omega
    | raised e => exact ⟨e, rfl⟩

/-- C9: every exception of the transport is caught inside the task body,
so send_email_task always terminates normally in one of the final
dispatch states — it never propagates an exception to the task runner —
and the runner therefore never re-attempts: the attempt count is exactly
one for every transport behaviour. -/
theorem send_email_task_never_raises
    (DEFAULT_FROM_EMAIL : String)
    (send_mail : String → String → String → List String → TransportResult)
    («to» subject message : String) :
    (∃ s, (send_email_task DEFAULT_FROM_EMAIL send_mail «to» subject message).outcome =
      TaskOutcome.completed s) ∧
    dispatchAttempts DEFAULT_FROM_EMAIL send_mail «to» subject message = 1 := by
  refine ⟨?_, dispatchAttempts_eq_one DEFAULT_FROM_EMAIL send_mail «to» subject message⟩
  cases hR : send_mail subject message DEFAULT_FROM_EMAIL [«to»] with
  | success => exact ⟨DispatchState.Sent, by simp [send_email_task, hR]⟩
  | badHeader => exact ⟨DispatchState.DroppedMalformedHeader, by simp [send_email_task, hR]⟩
  | otherError e => exact ⟨DispatchState.LoggedFailure, by simp [send_email_task, hR]⟩

/-- C7: every ContactForm record the Submission Endpoint persists has a
non-empty email accepted by the email validator, a non-empty name of at
most 64 characters, and a non-empty subject of at most 64 characters;
a submission violating one of these constraints yields no persisted
record, so the invariant holds for all stored records. -/
theorem persisted_record_invariant
    (emailValidator : String → Bool) (d : SubmissionData) (now : Nat)
    (r : ContactForm)
    (h : ContactFormView.post emailValidator d now = some r) :
    r.email ≠ "" ∧ emailValidator r.email = true ∧
    r.name ≠ "" ∧ r.name.length ≤ 64 ∧
    r.subject ≠ "" ∧ r.subject.length ≤ 64 := by
  unfold ContactFormView.post at h
  by_cases hv : form_is_valid emailValidator d = true
  · rw [if_pos hv] at h
    have hr : r = (ContactFormModelForm.build d).save now := (Option.some.inj h).symm
    subst hr
    simp only [form_is_valid, char_field_ok, email_field_ok, text_field_ok,
      Bool.and_eq_true, decide_eq_true_eq, bne_iff_ne, ne_eq] at hv
    obtain ⟨⟨⟨⟨hn1, hn2⟩, he1, he2⟩, hs1, hs2⟩, _⟩ := hv
    exact ⟨he1, he2, hn1, hn2, hs1, hs2⟩
  · rw [if_neg hv] at h
    cases h

/-- A sample email validator for the concrete instance below. -/
def exampleEmailValidator (s : String) : Bool :=
  s == "a@example.com"

/-- C7 witness: a concrete valid submission persisted at time 7. -/
theorem persisted_record_invariant_witness :
    ("a@example.com" : String) ≠ "" ∧
    exampleEmailValidator "a@example.com" = true ∧
    ("Alice" : String) ≠ "" ∧ ("Alice" : String).length ≤ 64 ∧
    ("Hi" : String) ≠ "" ∧ ("Hi" : String).length ≤ 64 :=
  persisted_record_invariant exampleEmailValidator
    ⟨"Alice", "a@example.com", "Hi", "Hello", []⟩ 7
    ⟨"a@example.com", "Alice", "Hi", "Hello", 7⟩ rfl

/-- C8: the created_on timestamp is set to the time of the save on every
save — a second save of the same record refreshes it, so it is not fixed
at initial creation. -/
theorem created_on_refreshed_on_every_save (r : ContactForm) (t1 t2 : Nat) :
    (r.save t1).created_on = t1 ∧ ((r.save t1).save t2).created_on = t2 :=
  ⟨rfl, rfl⟩

/-- C10: the form maps exactly the submitted name, email, subject and
message onto the record; every other posted key is ignored (the built
record does not depend on them), and created_on after the save equals
the save time for every submission — no submitted input can set or
override it — while the save leaves the four mapped fields unchanged. -/
theorem form_field_mapping_frame
    (d : SubmissionData) (extra : List (String × String)) (now : Nat) :
    (ContactFormModelForm.build d).name = d.name ∧
    (ContactFormModelForm.build d).email = d.email ∧
    (ContactFormModelForm.build d).subject = d.subject ∧
    (ContactFormModelForm.build d).message = d.message ∧
    ContactFormModelForm.build { d with other_fields := extra } =
      ContactFormModelForm.build d ∧
    ((ContactFormModelForm.build d).save now).created_on = now ∧
    ((ContactFormModelForm.build d).save now).name = d.name ∧
    ((ContactFormModelForm.build d).save now).email = d.email ∧
    ((ContactFormModelForm.build d).save now).subject = d.subject ∧
    ((ContactFormModelForm.build d).save now).message = d.message :=
  ⟨rfl, rfl, rfl, rfl, rfl, rfl, rfl, rfl, rfl, rfl⟩

end CeleryExample
